import Mathlib

/-!
Shallow embedding of the park-record CRUD front-end.

The definitions below are translated from the repository's JavaScript/JSX
sources: the validation hook shared by `ParkForm.jsx` and `ParkEditForm.jsx`,
the submit handlers of both forms, the delete flow of `ParkCard.jsx` and
`useDeletePark.js`, the image-URL helper of `ParkCard.jsx`, the list
filter/sort of `ParkList`, and the per-call-site axios request options.
JavaScript strings are modelled as Lean `String` (with explicit helpers for
UTF-16 length, `trim`, the whitespace class and `ToNumber`), numbers as `ℚ`,
and fallible or optional values as `Option`.
-/

/-- Characters of the JavaScript whitespace class: the set trimmed by
`String.prototype.trim` and matched by the regex class `\s`. -/
def isJsWhitespace (c : Char) : Bool :=
  c.toNat = 32 || c.toNat = 9 || c.toNat = 10 || c.toNat = 13 ||
  c.toNat = 11 || c.toNat = 12 || c.toNat = 0xa0 || c.toNat = 0x1680 ||
  (0x2000 ≤ c.toNat && c.toNat ≤ 0x200a) || c.toNat = 0x2028 || c.toNat = 0x2029 ||
  c.toNat = 0x202f || c.toNat = 0x205f || c.toNat = 0x3000 || c.toNat = 0xfeff

/-- `value.trim()` on the character list of a JavaScript string. -/
def jsTrimList (l : List Char) : List Char :=
  ((l.dropWhile isJsWhitespace).reverse.dropWhile isJsWhitespace).reverse

/-- `value.length` of a JavaScript string: UTF-16 code units (astral-plane
characters count twice). -/
def jsLength (l : List Char) : Nat :=
  (l.map (fun c => if c.toNat < 0x10000 then 1 else 2)).sum

/-- `a-zA-Z` of the validation regexes. -/
def isAsciiLetter (c : Char) : Bool :=
  (97 ≤ c.toNat && c.toNat ≤ 122) || (65 ≤ c.toNat && c.toNat ≤ 90)

/-- The accented letters `áéíóúÁÉÍÓÚñÑ` the validation regexes allow, by
code point. -/
def isAccentedLetter (c : Char) : Bool :=
  c.toNat = 0xe1 || c.toNat = 0xe9 || c.toNat = 0xed || c.toNat = 0xf3 || c.toNat = 0xfa ||
  c.toNat = 0xc1 || c.toNat = 0xc9 || c.toNat = 0xcd || c.toNat = 0xd3 || c.toNat = 0xda ||
  c.toNat = 0xf1 || c.toNat = 0xd1

/-- One character of the class `[a-zA-ZáéíóúÁÉÍÓÚñÑ\s]` (name rule). -/
def nameClassChar (c : Char) : Bool :=
  isAsciiLetter c || isAccentedLetter c || isJsWhitespace c

/-- One character of the class `[a-zA-ZáéíóúÁÉÍÓÚñÑ]` (abbreviation rule). -/
def letterClassChar (c : Char) : Bool :=
  isAsciiLetter c || isAccentedLetter c

/-- `/^[a-zA-ZáéíóúÁÉÍÓÚñÑ\s]+$/.test` on a character list. -/
def nameRegexTest (l : List Char) : Bool :=
  !l.isEmpty && l.all nameClassChar

/-- `/^[a-zA-ZáéíóúÁÉÍÓÚñÑ]+$/.test` on a character list. -/
def lettersRegexTest (l : List Char) : Bool :=
  !l.isEmpty && l.all letterClassChar

/-- `/^4[4-5]\d{3}$/.test` on a character list. -/
def zipRegexTest (l : List Char) : Bool :=
  match l with
  | [c1, c2, c3, c4, c5] =>
      c1 = '4' && (c2 = '4' || c2 = '5') && c3.isDigit && c4.isDigit && c5.isDigit
  | _ => false

/-- A JavaScript regex line terminator (`.` matches everything else). -/
def isJsLineTerm (c : Char) : Bool :=
  c.toNat = 10 || c.toNat = 13 || c.toNat = 0x2028 || c.toNat = 0x2029

/-- A character matched by `.` in a JavaScript regex (no `s` flag). -/
def jsDotChar (c : Char) : Bool := !isJsLineTerm c

/-- ASCII lowercasing on code points, which is how the `i` flag treats the
literal letters of the image-URL pattern. -/
def asciiLowerNat (c : Char) : Nat :=
  if 65 ≤ c.toNat && c.toNat ≤ 90 then c.toNat + 32 else c.toNat

/-- Strip a lowercase literal pattern (given by code points) from the front
of the input, case-insensitively; `none` when the input does not start with
it. -/
def stripCI : List Nat → List Char → Option (List Char)
  | [], l => some l
  | _ :: _, [] => none
  | p :: ps, c :: cs => if asciiLowerNat c = p then stripCI ps cs else none

/-- The `(\?.*)?$` tail of the image-URL pattern. -/
def extTailOk (l : List Char) : Bool :=
  match l with
  | [] => true
  | '?' :: rest => rest.all jsDotChar
  | _ => false

/-- After the literal dot: one of the extensions `jpg|jpeg|png|webp`
(case-insensitive) followed by an optional query string. -/
def afterDotOk (l : List Char) : Bool :=
  ["jpg", "jpeg", "png", "webp"].any (fun ext =>
    ((l.take ext.length).map asciiLowerNat = ext.data.map Char.toNat) &&
      extTailOk (l.drop ext.length))

/-- Scan for the `.+\.` part of the image-URL pattern: some split point
carries a literal dot (preceded by at least one `.`-matched character) whose
tail satisfies `afterDotOk`. -/
def scanDot : Bool → List Char → Bool
  | _, [] => false
  | seen, c :: rest =>
      (seen && c = '.' && afterDotOk rest) || (jsDotChar c && scanDot true rest)

/-- `/^https?:\/\/.+\.(jpg|jpeg|png|webp)(\?.*)?$/i.test` on a character
list. -/
def imgUrlRegexTest (l : List Char) : Bool :=
  match stripCI ("http".data.map Char.toNat) l with
  | none => false
  | some r1 =>
      let r2 := match r1 with
        | c :: cs => if asciiLowerNat c = 115 then cs else r1
        | [] => r1
      match stripCI ("://".data.map Char.toNat) r2 with
      | none => false
      | some r3 => scanDot false r3

/-- Value of a digit string read left to right. -/
def natOfDigits (l : List Char) : Nat :=
  l.foldl (fun n c => 10 * n + (c.toNat - 48)) 0

/-- An exact decimal number `mant / 10 ^ scale`, the value space of the
latitude/longitude inputs. Kept unreduced so every comparison is plain
integer arithmetic. -/
structure DecimalValue where
  mant : Int
  scale : Nat
deriving DecidableEq, Repr

/-- The rational a `DecimalValue` denotes. -/
def DecimalValue.toRat (a : DecimalValue) : ℚ :=
  (a.mant : ℚ) / (10 : ℚ) ^ a.scale

/-- Numeric `<` on decimal values by cross-multiplication (the JavaScript
`<` after `ToNumber` coercion). -/
def DecimalValue.blt (a b : DecimalValue) : Bool :=
  decide (a.mant * (10 : Int) ^ b.scale < b.mant * (10 : Int) ^ a.scale)

/-- The exponent part after `e`/`E` in a JavaScript decimal literal. -/
def parseExpPart (l : List Char) : Option Int :=
  match l with
  | '+' :: ds =>
      if !ds.isEmpty && ds.all Char.isDigit then some (natOfDigits ds : Int) else none
  | '-' :: ds =>
      if !ds.isEmpty && ds.all Char.isDigit then some (-(natOfDigits ds : Int)) else none
  | ds =>
      if !ds.isEmpty && ds.all Char.isDigit then some (natOfDigits ds : Int) else none

/-- Apply an optional trailing exponent to an already-parsed mantissa; any
other trailing junk makes the whole literal `NaN`. -/
def applyExp (m : DecimalValue) (l : List Char) : Option DecimalValue :=
  match l with
  | [] => some m
  | c :: r =>
      if c = 'e' || c = 'E' then
        (parseExpPart r).map (fun e =>
          if e < 0 then ⟨m.mant, m.scale + e.natAbs⟩
          else ⟨m.mant * (10 : Int) ^ e.natAbs, m.scale⟩)
      else none

/-- An unsigned JavaScript decimal literal: digits, an optional fraction and
an optional exponent. -/
def parseUnsigned (l : List Char) : Option DecimalValue :=
  let ip := l.takeWhile Char.isDigit
  let r1 := l.dropWhile Char.isDigit
  match r1 with
  | '.' :: r2 =>
      let fp := r2.takeWhile Char.isDigit
      let r3 := r2.dropWhile Char.isDigit
      if ip.isEmpty && fp.isEmpty then none
      else applyExp ⟨(natOfDigits ip : Int) * (10 : Int) ^ fp.length + (natOfDigits fp : Int), fp.length⟩ r3
  | _ => if ip.isEmpty then none else applyExp ⟨(natOfDigits ip : Int), 0⟩ r1

/-- JavaScript `ToNumber` on the strings this form produces: whitespace is
trimmed, the empty string is `0`, and signed decimal literals (with optional
fraction and exponent) are parsed; everything else is `NaN`, modelled as
`none`. Hexadecimal and `Infinity` forms are outside the inputs the
latitude/longitude fields can hold and are mapped to `none`. -/
def jsToNumber (s : String) : Option DecimalValue :=
  let t := jsTrimList s.data
  match t with
  | [] => some ⟨0, 0⟩
  | '+' :: r => parseUnsigned r
  | '-' :: r => (parseUnsigned r).map (fun v => ⟨-v.mant, v.scale⟩)
  | _ => parseUnsigned t

/-- `validationRules.park_name` of `ParkForm.jsx` / `ParkEditForm.jsx`. -/
def validate_park_name (value : String) : Option String :=
  if (jsTrimList value.data).isEmpty then some "El nombre es requerido"
  else if jsLength value.data < 3 then some "Mínimo 3 caracteres"
  else if jsLength value.data > 100 then some "Máximo 100 caracteres"
  else if !nameRegexTest (jsTrimList value.data) then some "Solo letras y espacios"
  else none

/-- `validationRules.park_abbreviation`. -/
def validate_park_abbreviation (value : String) : Option String :=
  if (jsTrimList value.data).isEmpty then some "La abreviación es requerida"
  else if jsLength value.data < 2 then some "Mínimo 2 caracteres"
  else if jsLength value.data > 10 then some "Máximo 10 caracteres"
  else if !lettersRegexTest (jsTrimList value.data) then some "Solo letras"
  else none

/-- `validationRules.park_img_url`; the pattern is tested on the raw value,
only the required check trims. -/
def validate_park_img_url (value : String) : Option String :=
  if (jsTrimList value.data).isEmpty then some "La URL es requerida"
  else if !imgUrlRegexTest value.data then some "URL inválida (.jpg, .jpeg, .png, .webp)"
  else none

/-- `validationRules.park_address`. -/
def validate_park_address (value : String) : Option String :=
  if (jsTrimList value.data).isEmpty then some "La dirección es requerida"
  else if jsLength value.data < 10 then some "Mínimo 10 caracteres"
  else if jsLength value.data > 150 then some "Máximo 150 caracteres"
  else none

/-- The fixed city set of `validationRules.park_city`. -/
def validCities : List String :=
  ["Zapopan", "Guadalajara", "San Pedro Tlaquepaque", "Tonalá"]

/-- `validationRules.park_city`. -/
def validate_park_city (value : String) : Option String :=
  if value.data.isEmpty then some "La ciudad es requerida"
  else if !(validCities.contains value) then some "Ciudad no válida"
  else none

/-- `validationRules.park_zip_code`. -/
def validate_park_zip_code (value : String) : Option String :=
  if value.data.isEmpty then some "El código postal es requerido"
  else if !zipRegexTest value.data then some "Código inválido para Jalisco (44xxx o 45xxx)"
  else none

/-- `validationRules.park_latitude`: the falsy check, then
`isNaN(value) || value < 20 || value > 21.5` via `ToNumber` coercion. -/
def validate_park_latitude (value : String) : Option String :=
  if value.data.isEmpty then some "La latitud es requerida"
  else
    match jsToNumber value with
    | none => some "Latitud inválida para Jalisco (20-21.5)"
    | some v =>
        if v.blt ⟨20, 0⟩ || DecimalValue.blt ⟨215, 1⟩ v then
          some "Latitud inválida para Jalisco (20-21.5)"
        else none

/-- `validationRules.park_longitude`. -/
def validate_park_longitude (value : String) : Option String :=
  if value.data.isEmpty then some "La longitud es requerida"
  else
    match jsToNumber value with
    | none => some "Longitud inválida para Jalisco (-105 a -102)"
    | some v =>
        if v.blt ⟨-105, 0⟩ || DecimalValue.blt ⟨-102, 0⟩ v then
          some "Longitud inválida para Jalisco (-105 a -102)"
        else none

/-- The `validationRules` object: a partial map from field name to rule;
fields without a rule (such as `park_state`) are absent. -/
def validationRules (field : String) : Option (String → Option String) :=
  if field = "park_name" then some validate_park_name
  else if field = "park_abbreviation" then some validate_park_abbreviation
  else if field = "park_img_url" then some validate_park_img_url
  else if field = "park_address" then some validate_park_address
  else if field = "park_city" then some validate_park_city
  else if field = "park_zip_code" then some validate_park_zip_code
  else if field = "park_latitude" then some validate_park_latitude
  else if field = "park_longitude" then some validate_park_longitude
  else none

/-- `validationRules[name]?.(value)`: the error, if any, that the field's
rule produces (no rule behaves as no error). -/
def runRule (field value : String) : Option String :=
  (validationRules field).bind (fun rule => rule value)

/-- `validate(name, value)` of the validation hook: true when the field's
rule (if any) reports no error. -/
def validate (field value : String) : Bool :=
  (runRule field value).isNone

/-- The draft record held by both forms: nine string-valued fields, seeded
in this insertion order. -/
structure ParkFormData where
  park_name : String
  park_abbreviation : String
  park_img_url : String
  park_address : String
  park_city : String
  park_state : String
  park_zip_code : String
  park_latitude : String
  park_longitude : String
deriving DecidableEq, Repr

/-- `Object.keys(formData)` in insertion order. -/
def formKeys : List String :=
  ["park_name", "park_abbreviation", "park_img_url", "park_address",
   "park_city", "park_state", "park_zip_code", "park_latitude", "park_longitude"]

/-- `formData[key]`. -/
def getField (d : ParkFormData) (field : String) : String :=
  if field = "park_name" then d.park_name
  else if field = "park_abbreviation" then d.park_abbreviation
  else if field = "park_img_url" then d.park_img_url
  else if field = "park_address" then d.park_address
  else if field = "park_city" then d.park_city
  else if field = "park_state" then d.park_state
  else if field = "park_zip_code" then d.park_zip_code
  else if field = "park_latitude" then d.park_latitude
  else if field = "park_longitude" then d.park_longitude
  else ""

/-- Replace one named field of the draft (the spread update of
`handleChange`); an unknown name leaves the draft unchanged. -/
def setField (d : ParkFormData) (field value : String) : ParkFormData :=
  if field = "park_name" then { d with park_name := value }
  else if field = "park_abbreviation" then { d with park_abbreviation := value }
  else if field = "park_img_url" then { d with park_img_url := value }
  else if field = "park_address" then { d with park_address := value }
  else if field = "park_city" then { d with park_city := value }
  else if field = "park_state" then { d with park_state := value }
  else if field = "park_zip_code" then { d with park_zip_code := value }
  else if field = "park_latitude" then { d with park_latitude := value }
  else if field = "park_longitude" then { d with park_longitude := value }
  else d

/-- `validateAll(formData)`: walk `Object.keys(formData)`, collect each
field's error under its key; the submit is accepted exactly when the
resulting mapping is empty. -/
def validateAll (d : ParkFormData) : List (String × String) :=
  formKeys.filterMap (fun k => (runRule k (getField d k)).map (fun e => (k, e)))

/-- The eight fields that own a validation rule. -/
def ruledKeys : List String :=
  ["park_name", "park_abbreviation", "park_img_url", "park_address",
   "park_city", "park_zip_code", "park_latitude", "park_longitude"]

/-- JavaScript truthiness of an optional string field: present and
non-empty. -/
def jsTruthyStr (v : Option String) : Bool :=
  match v with
  | none => false
  | some s => !s.data.isEmpty

/-- The fixed storage base `getImageUrl` joins server-relative paths onto. -/
def storageBase : String := "https://azuritaa33.sg-host.com/storage"

/-- The constant fallback image of `ParkCard`. -/
def placeholderImage : String :=
  "https://images.unsplash.com/photo-1441974231531-c6227db76b6e?w=400&h=300&fit=crop&q=80"

/-- `getImageUrl` of `ParkCard.jsx`: prefer `park_img_url`, else
`storageBase + "/" + park_img_uri`, else the placeholder; once the
`imageError` flag is set both preferences are skipped. -/
def getImageUrl (park_img_url park_img_uri : Option String) (imageError : Bool) : String :=
  if jsTruthyStr park_img_url && !imageError then park_img_url.getD ""
  else if jsTruthyStr park_img_uri && !imageError then storageBase ++ "/" ++ park_img_uri.getD ""
  else placeholderImage

/-- The `onError` handler's effect on the `imageError` flag: it is set and
nothing in the card ever resets it. -/
def onErrorImageFlag (imageError : Bool) : Bool :=
  if !imageError then true else imageError

/-- One park record as held by the list view; fields the server may omit
are optional. -/
structure Park where
  id : Option Int
  park_name : Option String
  park_city : Option String
  park_state : Option String
  park_address : Option String
deriving DecidableEq, Repr

/-- `toLowerCase` on the Basic Latin and Latin-1 letters these records
hold. -/
def jsLowerChar (c : Char) : Char :=
  if 65 ≤ c.toNat && c.toNat ≤ 90 then Char.ofNat (c.toNat + 32)
  else if 0xc0 ≤ c.toNat && c.toNat ≤ 0xde && c.toNat ≠ 0xd7 then Char.ofNat (c.toNat + 32)
  else c

/-- Map `toLowerCase` over a character list. -/
def jsLowerList (l : List Char) : List Char := l.map jsLowerChar

/-- Does `l` start with `pat`? -/
def listStartsWith : List Char → List Char → Bool
  | _, [] => true
  | [], _ :: _ => false
  | a :: as, b :: bs => a = b && listStartsWith as bs

/-- `String.prototype.includes`: contiguous substring occurrence. -/
def listContainsSub (l pat : List Char) : Bool :=
  match l with
  | [] => pat.isEmpty
  | _ :: t => listStartsWith l pat || listContainsSub t pat

/-- `field?.toLowerCase().includes(term.toLowerCase())` with optional
chaining: a missing field never matches. -/
def ciIncludes (field : Option String) (term : String) : Bool :=
  match field with
  | none => false
  | some s => listContainsSub (jsLowerList s.data) (jsLowerList term.data)

/-- The search predicate of `filteredAndSortedParks`: an empty term matches
everything, otherwise the term must occur case-insensitively in the name,
city, state or address field. -/
def matchesSearch (p : Park) (searchTerm : String) : Bool :=
  searchTerm.data.isEmpty ||
  ciIncludes p.park_name searchTerm || ciIncludes p.park_city searchTerm ||
  ciIncludes p.park_state searchTerm || ciIncludes p.park_address searchTerm

/-- The optional exact-match city filter of `filteredAndSortedParks`. -/
def matchesCity (p : Park) (filterCity : String) : Bool :=
  filterCity.data.isEmpty || p.park_city == some filterCity

/-- Lexicographic order on character lists by code point; the model of the
`localeCompare` collation. -/
def strListLe : List Char → List Char → Bool
  | [], _ => true
  | _ :: _, [] => false
  | a :: as, b :: bs =>
      decide (a.toNat < b.toNat) || (decide (a.toNat = b.toNat) && strListLe as bs)

/-- String comparison used for the name and city sort keys. -/
def strLe (a b : String) : Bool := strListLe a.data b.data

/-- The sort comparator of `filteredAndSortedParks`, read as the relation
"comparator result is not positive": ascending name (the default),
ascending city, or descending identifier for `recent`; missing fields
default as in the source (`|| ''`, `|| 0`). -/
def sortLeOf (sortBy : String) (a b : Park) : Bool :=
  if sortBy = "city" then strLe (a.park_city.getD "") (b.park_city.getD "")
  else if sortBy = "recent" then decide (b.id.getD 0 ≤ a.id.getD 0)
  else strLe (a.park_name.getD "") (b.park_name.getD "")

/-- `filteredAndSortedParks` of `ParkList`: filter by search term and city
filter, then sort by the selected key (`Array.prototype.sort` is stable;
modelled by merge sort). -/
def filteredAndSortedParks (parks : List Park) (searchTerm filterCity sortBy : String) : List Park :=
  let filtered := parks.filter (fun p => matchesSearch p searchTerm && matchesCity p filterCity)
  filtered.mergeSort (sortLeOf sortBy)

/-- Outcome of one invocation of the create form's `handleSubmit`, up to
the confirmation dialog. -/
inductive CreateSubmitOutcome
  | offlineNotice
  | validationNotice (reportedCount : Nat)
  | confirmDialog (name city : String)
deriving DecidableEq, Repr

/-- `handleSubmit` of `ParkForm.jsx`: the online guard, then `validateAll`;
on a validation failure it reports `Object.keys(errors).length` where
`errors` is the live-validation state captured when the handler's render
closed over it — not the mapping the failing `validateAll` just computed —
then returns before any request; otherwise it opens the confirmation
dialog. -/
def handleSubmit (online : Bool) (errorsKeys : List String) (d : ParkFormData) :
    CreateSubmitOutcome :=
  if !online then .offlineNotice
  else if !(validateAll d).isEmpty then .validationNotice errorsKeys.length
  else .confirmDialog d.park_name d.park_city

/-- Only a confirmed confirmation dialog reaches `api.post`. -/
def createOutcomeIssuesRequest (o : CreateSubmitOutcome) (userConfirms : Bool) : Bool :=
  match o with
  | .confirmDialog _ _ => userConfirms
  | _ => false

/-- Outcome of one invocation of the edit form's `handleSubmit`, up to the
confirmation dialog. -/
inductive EditSubmitOutcome
  | offlineNotice
  | validationNotice (reportedCount : Nat)
  | noChangesNotice
  | confirmDialog (changes : List (String × String × String))
deriving DecidableEq, Repr

/-- `hasChanges` of `ParkEditForm.jsx`: structural inequality between the
draft and the fetched snapshot (`JSON.stringify` comparison of two records
built with the same key order). -/
def hasChanges (formData originalData : ParkFormData) : Bool :=
  !decide (formData = originalData)

/-- The per-field before/after diff the edit confirmation dialog lists. -/
def changesList (formData originalData : ParkFormData) : List (String × String × String) :=
  formKeys.filterMap (fun k =>
    if getField formData k = getField originalData k then none
    else some (k, getField originalData k, getField formData k))

/-- `handleSubmit` of `ParkEditForm.jsx`: online guard, `validateAll` (with
the same stale `errors` count as the create form), then the `hasChanges`
guard, then the confirmation dialog with the change diff. -/
def editHandleSubmit (online : Bool) (errorsKeys : List String)
    (formData originalData : ParkFormData) : EditSubmitOutcome :=
  if !online then .offlineNotice
  else if !(validateAll formData).isEmpty then .validationNotice errorsKeys.length
  else if !hasChanges formData originalData then .noChangesNotice
  else .confirmDialog (changesList formData originalData)

/-- Only a confirmed confirmation dialog reaches `api.put`. -/
def editOutcomeIssuesRequest (o : EditSubmitOutcome) (userConfirms : Bool) : Bool :=
  match o with
  | .confirmDialog _ => userConfirms
  | _ => false

/-- The user's choices and the simulated network result of one pass through
`handleDeleteClick` of `ParkCard.jsx`. -/
structure DeleteRound where
  online : Bool
  confirm : Bool
  fails : Bool
  retry : Bool
deriving DecidableEq, Repr

/-- What a (possibly retried) run of `handleDeleteClick` produces: the
`delete(id)` calls issued, the successful-deletion notifications handed to
`onParkDeleted`, and whether a failure dialog offering retry was shown. -/
structure DeleteTrace where
  calls : List Int
  removals : List Int
  retryOffered : Bool
deriving DecidableEq, Repr

/-- `handleDeleteClick` of `ParkCard.jsx` over a list of rounds: the online
guard, the confirmation dialog, one `api.delete` call; on success the
parent is notified; on failure an error dialog offers retry, and a
confirmed retry re-invokes `handleDeleteClick` (the next round). -/
def runDeleteFlow (parkId : Int) : List DeleteRound → DeleteTrace
  | [] => ⟨[], [], false⟩
  | r :: rest =>
      if !r.online then ⟨[], [], false⟩
      else if !r.confirm then ⟨[], [], false⟩
      else if r.fails then
        if r.retry then
          let t := runDeleteFlow parkId rest
          ⟨parkId :: t.calls, t.removals, true⟩
        else ⟨[parkId], [], true⟩
      else ⟨[parkId], [parkId], false⟩

/-- `handleParkDeleted` of the list: drop the entry with the deleted id. -/
def handleParkDeleted (parks : List Park) (deletedParkId : Int) : List Park :=
  parks.filter (fun p => !(p.id == some deletedParkId))

/-- Fold successful-deletion notifications into the held collection. -/
def applyRemovals (parks : List Park) (ids : List Int) : List Park :=
  ids.foldl handleParkDeleted parks

/-- The shape of an axios error as the catch blocks inspect it: optional
HTTP status, optional error code, optional server-provided message, and
the navigator's online flag at catch time. -/
structure AxiosError where
  status : Option Nat
  code : Option String
  dataMessage : Option String
  online : Bool
deriving DecidableEq, Repr

/-- An error dialog: title and text, plus whether a retry button is
offered. -/
structure ErrorDialog where
  title : String
  text : String
  retryOffered : Bool
deriving DecidableEq, Repr

/-- The catch block of `handleDeleteClick` in `ParkCard.jsx`; every branch
shows the Reintentar/Cancelar pair. -/
def cardDeleteErrorDialog (e : AxiosError) : ErrorDialog :=
  if e.status == some 404 then
    ⟨"Parque no encontrado", "El parque ya no existe o fue eliminado previamente", true⟩
  else if e.status == some 403 then
    ⟨"Sin permisos", "No tienes permisos para eliminar este parque", true⟩
  else if e.status == some 401 then
    ⟨"No autorizado", "Tus credenciales han expirado. Actualiza la página", true⟩
  else if e.status == some 500 then
    ⟨"Error del servidor", "Hubo un problema en el servidor. Intenta más tarde", true⟩
  else if e.code == some "ECONNABORTED" then
    ⟨"Tiempo agotado", "La eliminación tardó demasiado tiempo. Verifica tu conexión", true⟩
  else if jsTruthyStr e.dataMessage then
    ⟨"Error al eliminar", e.dataMessage.getD "", true⟩
  else if !e.online then
    ⟨"Sin conexión", "Se perdió la conexión a internet durante la eliminación", true⟩
  else ⟨"Error al eliminar", "No se pudo eliminar el parque", true⟩

/-- The catch block of `fetchParks` in `Home`: one dialog with
Reintentar/Cancelar. -/
def homeFetchErrorDialog (e : AxiosError) : ErrorDialog :=
  ⟨"Error al cargar parques",
   if jsTruthyStr e.dataMessage then e.dataMessage.getD ""
   else "No se pudieron cargar los parques. Verifica tu conexión a internet.", true⟩

/-- The same catch block also runs `setParks([])` before the user answers
the dialog, clearing the held collection. -/
def homeFetchCatchParks (_prev : List Park) : List Park := []

/-- The catch block of `fetchPark` in `ParkDetail`: a 404 gets a single
back-navigation button, every other branch offers Reintentar/Volver. -/
def detailFetchErrorDialog (e : AxiosError) (id : String) : ErrorDialog :=
  if e.status == some 404 then
    ⟨"Parque no encontrado", "No existe el parque con ID: " ++ id, false⟩
  else if e.status == some 500 then
    ⟨"Error del servidor", "Problema en el servidor. Intenta más tarde.", true⟩
  else ⟨"Error de conexión", "No se pudo conectar con el servidor", true⟩

/-- The catch block of the edit form's `fetchPark`; every branch offers
Reintentar/Volver al inicio. -/
def editLoadErrorDialog (e : AxiosError) (id : String) : ErrorDialog :=
  if e.status == some 404 then
    ⟨"Parque no encontrado", "No existe un parque con ID: " ++ id, true⟩
  else if e.status == some 500 then
    ⟨"Error del servidor", "Problema en el servidor. Intenta más tarde.", true⟩
  else if e.code == some "ECONNABORTED" then
    ⟨"Tiempo agotado", "La carga tardó demasiado tiempo.", true⟩
  else ⟨"Error de carga", "No se pudo cargar el parque", true⟩

/-- The catch block of the create form's `handleSubmit`; every branch
offers Reintentar/Cancelar. -/
def createSubmitErrorDialog (e : AxiosError) : ErrorDialog :=
  if e.status == some 422 then ⟨"Error", "Datos inválidos", true⟩
  else if e.status == some 409 then ⟨"Error", "Parque duplicado", true⟩
  else if e.status == some 500 then ⟨"Error", "Error del servidor", true⟩
  else if e.code == some "ECONNABORTED" then ⟨"Error", "Tiempo agotado", true⟩
  else ⟨"Error", "Error desconocido", true⟩

/-- The catch block of the edit form's `handleSubmit`; every branch offers
Reintentar/Cancelar. -/
def editSubmitErrorDialog (e : AxiosError) : ErrorDialog :=
  if e.status == some 422 then
    ⟨"Datos inválidos", "Los datos enviados no son válidos. Revisa todos los campos.", true⟩
  else if e.status == some 404 then
    ⟨"Parque no encontrado", "El parque ya no existe o fue eliminado.", true⟩
  else if e.status == some 409 then
    ⟨"Conflicto de datos", "Ya existe otro parque con ese nombre o abreviación.", true⟩
  else if e.status == some 500 then
    ⟨"Error del servidor", "Problema en el servidor. Intenta más tarde.", true⟩
  else if e.code == some "ECONNABORTED" then
    ⟨"Tiempo agotado", "La actualización tardó demasiado tiempo.", true⟩
  else ⟨"Error de actualización", "Error desconocido al actualizar", true⟩

/-- The message chain of `useDeletePark`'s catch:
`data.message || data.error || error.message || fallback`. -/
def hookDeleteErrorMessage (dataMessage dataError message : Option String) : String :=
  if jsTruthyStr dataMessage then dataMessage.getD ""
  else if jsTruthyStr dataError then dataError.getD ""
  else if jsTruthyStr message then message.getD ""
  else "Error desconocido al eliminar el parque"

/-- The error dialog of `useDeletePark.deletePark`: a lone confirm button,
no retry option. -/
def hookDeleteErrorDialog (dataMessage dataError message : Option String) : ErrorDialog :=
  ⟨"Error",
   "No se pudo eliminar el parque: " ++ hookDeleteErrorMessage dataMessage dataError message,
   false⟩

/-- The seven axios call sites of the record-client operations. -/
inductive ApiCallSite
  | homeList
  | detailGet
  | editLoadGet
  | createPost
  | editPut
  | cardDelete
  | hookDelete
deriving DecidableEq, Repr

/-- The explicit per-call `timeout` option each call site passes, in
milliseconds; `none` when the call's config carries no timeout field. -/
def callSiteTimeout : ApiCallSite → Option Nat
  | .homeList => none
  | .detailGet => some 10000
  | .editLoadGet => some 10000
  | .createPost => some 15000
  | .editPut => some 15000
  | .cardDelete => some 15000
  | .hookDelete => none

/-- A concrete draft that satisfies every validation rule. -/
def sampleDraft : ParkFormData :=
  ⟨"Parque Metropolitano", "PM", "https://ejemplo.com/imagen.jpg",
   "Av. Alcalde 1351, Col. Miraflores", "Guadalajara", "Jalisco",
   "44100", "20.6597", "-103.3496"⟩

/-- A concrete draft whose name is below the minimum length and whose other
fields are valid. -/
def shortNameDraft : ParkFormData := { sampleDraft with park_name := "ab" }

/-- A concrete draft whose address is below the minimum length and whose
other fields are valid. -/
def shortAddressDraft : ParkFormData := { sampleDraft with park_address := "corta" }

/-- A concrete held park record. -/
def samplePark : Park :=
  ⟨some 7, some "Parque Alcalde", some "Guadalajara", some "Jalisco", some "Calle Uno 10"⟩

/-- A dialog is human-readable in the sense of carrying a non-empty title
and a non-empty text. -/
def dialogNonempty (dlg : ErrorDialog) : Bool :=
  !dlg.title.data.isEmpty && !dlg.text.data.isEmpty


/-- Comparison of decimal values agrees with comparison of the rationals
they denote. -/
theorem DecimalValue.blt_iff (a b : DecimalValue) :
    a.blt b = true ↔ a.toRat < b.toRat := by
  unfold DecimalValue.blt DecimalValue.toRat
  rw [decide_eq_true_eq, div_lt_div_iff₀ (by positivity) (by positivity)]
  constructor
  · intro h
    exact_mod_cast h
  · intro h
    exact_mod_cast h

/-- A list headed by a non-whitespace character does not trim to empty. -/
theorem jsTrimList_cons_not_ws (c : Char) (t : List Char)
    (h : isJsWhitespace c = false) : (jsTrimList (c :: t)).isEmpty = false := by
  have h1 : List.dropWhile isJsWhitespace (c :: t) = c :: t := by
    simp [List.dropWhile_cons, h]
  unfold jsTrimList
  rw [h1]
  rw [List.isEmpty_eq_false]
  intro hnil
  rw [List.reverse_eq_nil_iff, List.dropWhile_eq_nil_iff] at hnil
  have hc := hnil c (by simp)
  rw [h] at hc
  exact Bool.false_ne_true hc

/-- A successful image-URL pattern match starts with `h`/`H`, so the value
does not trim to empty. -/
theorem imgUrlRegexTest_trim (l : List Char) (h : imgUrlRegexTest l = true) :
    (jsTrimList l).isEmpty = false := by
  cases l with
  | nil => simp [imgUrlRegexTest, stripCI] at h
  | cons c t =>
      have hc : asciiLowerNat c = 104 := by
        by_contra hne
        simp [imgUrlRegexTest, stripCI, hne] at h
      apply jsTrimList_cons_not_ws
      unfold asciiLowerNat at hc
      simp only [isJsWhitespace, Bool.or_eq_false_iff, Bool.and_eq_false_iff,
        decide_eq_false_iff_not]
      split_ifs at hc with hr
      · simp only [Bool.and_eq_true, decide_eq_true_eq] at hr
        omega
      · omega

/-- Characterization of the name rule. -/
theorem validate_park_name_eq_none_iff (v : String) :
    validate_park_name v = none ↔
      ((jsTrimList v.data).isEmpty = false ∧ 3 ≤ jsLength v.data ∧
        jsLength v.data ≤ 100 ∧ nameRegexTest (jsTrimList v.data) = true) := by
  unfold validate_park_name
  split_ifs <;> simp_all

/-- Characterization of the abbreviation rule. -/
theorem validate_park_abbreviation_eq_none_iff (v : String) :
    validate_park_abbreviation v = none ↔
      ((jsTrimList v.data).isEmpty = false ∧ 2 ≤ jsLength v.data ∧
        jsLength v.data ≤ 10 ∧ lettersRegexTest (jsTrimList v.data) = true) := by
  unfold validate_park_abbreviation
  split_ifs <;> simp_all

/-- Characterization of the image-URL rule. -/
theorem validate_park_img_url_eq_none_iff (v : String) :
    validate_park_img_url v = none ↔ imgUrlRegexTest v.data = true := by
  unfold validate_park_img_url
  split_ifs with h1 h2
  · constructor
    · intro h; cases h
    · intro h; rw [imgUrlRegexTest_trim v.data h] at h1; cases h1
  · simp_all
  · simp_all

/-- Characterization of the address rule. -/
theorem validate_park_address_eq_none_iff (v : String) :
    validate_park_address v = none ↔
      ((jsTrimList v.data).isEmpty = false ∧ 10 ≤ jsLength v.data ∧
        jsLength v.data ≤ 150) := by
  unfold validate_park_address
  split_ifs <;> simp_all

/-- Characterization of the city rule. -/
theorem validate_park_city_eq_none_iff (v : String) :
    validate_park_city v = none ↔ validCities.contains v = true := by
  unfold validate_park_city
  split_ifs with h1 h2
  · constructor
    · intro h; cases h
    · intro h
      cases v with
      | mk d =>
          rw [List.isEmpty_iff] at h1
          subst h1
          simp [validCities] at h
  · simp_all
  · simp_all

/-- Characterization of the postal-code rule. -/
theorem validate_park_zip_code_eq_none_iff (v : String) :
    validate_park_zip_code v = none ↔ zipRegexTest v.data = true := by
  unfold validate_park_zip_code
  split_ifs with h1 h2
  · constructor
    · intro h; cases h
    · intro h
      rw [List.isEmpty_iff] at h1
      rw [h1] at h
      simp [zipRegexTest] at h
  · simp_all
  · simp_all

/-- Characterization of the latitude rule. -/
theorem validate_park_latitude_eq_none_iff (v : String) :
    validate_park_latitude v = none ↔
      (v.data.isEmpty = false ∧
        ∃ d, jsToNumber v = some d ∧ 20 ≤ d.toRat ∧ d.toRat ≤ 43 / 2) := by
  unfold validate_park_latitude
  split_ifs with h1
  · simp_all
  · cases hjs : jsToNumber v with
    | none => simp_all
    | some d =>
        have h20 : (⟨20, 0⟩ : DecimalValue).toRat = 20 := by
          unfold DecimalValue.toRat; norm_num
        have h215 : (⟨215, 1⟩ : DecimalValue).toRat = 43 / 2 := by
          unfold DecimalValue.toRat; norm_num
        simp only [h1, hjs]
        split_ifs with hb
        · simp only [Bool.or_eq_true, DecimalValue.blt_iff, h20, h215] at hb
          constructor
          · intro h; cases h
          · rintro ⟨-, e, he, hlo, hhi⟩
            injection he with hde
            subst hde
            rcases hb with hb | hb
            · exact absurd hlo (by push_neg; exact hb)
            · exact absurd hhi (by push_neg; exact hb)
        · simp only [Bool.or_eq_true, DecimalValue.blt_iff, h20, h215] at hb
          push_neg at hb
          constructor
          · intro _
            exact ⟨by simp [h1], d, rfl, hb.1, hb.2⟩
          · intro _; rfl

/-- Characterization of the longitude rule. -/
theorem validate_park_longitude_eq_none_iff (v : String) :
    validate_park_longitude v = none ↔
      (v.data.isEmpty = false ∧
        ∃ d, jsToNumber v = some d ∧ -105 ≤ d.toRat ∧ d.toRat ≤ -102) := by
  unfold validate_park_longitude
  split_ifs with h1
  · simp_all
  · cases hjs : jsToNumber v with
    | none => simp_all
    | some d =>
        have hlo : (⟨-105, 0⟩ : DecimalValue).toRat = -105 := by
          unfold DecimalValue.toRat; norm_num
        have hhi : (⟨-102, 0⟩ : DecimalValue).toRat = -102 := by
          unfold DecimalValue.toRat; norm_num
        simp only [h1, hjs]
        split_ifs with hb
        · simp only [Bool.or_eq_true, DecimalValue.blt_iff, hlo, hhi] at hb
          constructor
          · intro h; cases h
          · rintro ⟨-, e, he, hl, hh⟩
            injection he with hde
            subst hde
            rcases hb with hb | hb
            · exact absurd hl (by push_neg; exact hb)
            · exact absurd hh (by push_neg; exact hb)
        · simp only [Bool.or_eq_true, DecimalValue.blt_iff, hlo, hhi] at hb
          push_neg at hb
          constructor
          · intro _
            exact ⟨by simp [h1], d, rfl, hb.1, hb.2⟩
          · intro _; rfl

/-- The name rule's messages are non-empty. -/
theorem validate_park_name_msg (value : String) :
    (validate_park_name value).all (fun e => !e.data.isEmpty) = true := by
  unfold validate_park_name
  split_ifs <;> decide

/-- The abbreviation rule's messages are non-empty. -/
theorem validate_park_abbreviation_msg (value : String) :
    (validate_park_abbreviation value).all (fun e => !e.data.isEmpty) = true := by
  unfold validate_park_abbreviation
  split_ifs <;> decide

/-- The image-URL rule's messages are non-empty. -/
theorem validate_park_img_url_msg (value : String) :
    (validate_park_img_url value).all (fun e => !e.data.isEmpty) = true := by
  unfold validate_park_img_url
  split_ifs <;> decide

/-- The address rule's messages are non-empty. -/
theorem validate_park_address_msg (value : String) :
    (validate_park_address value).all (fun e => !e.data.isEmpty) = true := by
  unfold validate_park_address
  split_ifs <;> decide

/-- The city rule's messages are non-empty. -/
theorem validate_park_city_msg (value : String) :
    (validate_park_city value).all (fun e => !e.data.isEmpty) = true := by
  unfold validate_park_city
  split_ifs <;> decide

/-- The postal-code rule's messages are non-empty. -/
theorem validate_park_zip_code_msg (value : String) :
    (validate_park_zip_code value).all (fun e => !e.data.isEmpty) = true := by
  unfold validate_park_zip_code
  split_ifs <;> decide

/-- The latitude rule's messages are non-empty. -/
theorem validate_park_latitude_msg (value : String) :
    (validate_park_latitude value).all (fun e => !e.data.isEmpty) = true := by
  unfold validate_park_latitude
  split_ifs
  · decide
  · cases jsToNumber value with
    | none => decide
    | some d =>
        dsimp only
        split_ifs <;> decide

/-- The longitude rule's messages are non-empty. -/
theorem validate_park_longitude_msg (value : String) :
    (validate_park_longitude value).all (fun e => !e.data.isEmpty) = true := by
  unfold validate_park_longitude
  split_ifs
  · decide
  · cases jsToNumber value with
    | none => decide
    | some d =>
        dsimp only
        split_ifs <;> decide

/-- Every message a rule can produce is non-empty. -/
theorem runRule_msg_nonempty (field value : String) :
    (runRule field value).all (fun e => !e.data.isEmpty) = true := by
  unfold runRule validationRules
  split_ifs <;>
    first
    | exact validate_park_name_msg value
    | exact validate_park_abbreviation_msg value
    | exact validate_park_img_url_msg value
    | exact validate_park_address_msg value
    | exact validate_park_city_msg value
    | exact validate_park_zip_code_msg value
    | exact validate_park_latitude_msg value
    | exact validate_park_longitude_msg value
    | rfl

/-- C1: each ruled field's `validate` rejects every raw string outside the
field's stated bounds with a non-empty message, and accepts exactly the
strings within bounds that match the field's character class — for the name
non-emptiness after trimming, raw length in [3,100], letters/spaces/accents
on the trimmed value; for the abbreviation length in [2,10] and letters
only; for the image URL, address, city, postal code, latitude and longitude
the respective pattern, bounds or set; every produced message is
non-empty. -/
theorem claim_C1_field_rules (value : String) :
    (validate_park_name value = none ↔
      ((jsTrimList value.data).isEmpty = false ∧ 3 ≤ jsLength value.data ∧
        jsLength value.data ≤ 100 ∧ nameRegexTest (jsTrimList value.data) = true)) ∧
    (validate_park_abbreviation value = none ↔
      ((jsTrimList value.data).isEmpty = false ∧ 2 ≤ jsLength value.data ∧
        jsLength value.data ≤ 10 ∧ lettersRegexTest (jsTrimList value.data) = true)) ∧
    (validate_park_img_url value = none ↔ imgUrlRegexTest value.data = true) ∧
    (validate_park_address value = none ↔
      ((jsTrimList value.data).isEmpty = false ∧ 10 ≤ jsLength value.data ∧
        jsLength value.data ≤ 150)) ∧
    (validate_park_city value = none ↔ validCities.contains value = true) ∧
    (validate_park_zip_code value = none ↔ zipRegexTest value.data = true) ∧
    (validate_park_latitude value = none ↔
      (value.data.isEmpty = false ∧
        ∃ d, jsToNumber value = some d ∧ 20 ≤ d.toRat ∧ d.toRat ≤ 43 / 2)) ∧
    (validate_park_longitude value = none ↔
      (value.data.isEmpty = false ∧
        ∃ d, jsToNumber value = some d ∧ -105 ≤ d.toRat ∧ d.toRat ≤ -102)) ∧
    (∀ field : String, (runRule field value).all (fun e => !e.data.isEmpty) = true) :=
  ⟨validate_park_name_eq_none_iff value,
   validate_park_abbreviation_eq_none_iff value,
   validate_park_img_url_eq_none_iff value,
   validate_park_address_eq_none_iff value,
   validate_park_city_eq_none_iff value,
   validate_park_zip_code_eq_none_iff value,
   validate_park_latitude_eq_none_iff value,
   validate_park_longitude_eq_none_iff value,
   fun field => runRule_msg_nonempty field value⟩

/-- `park_state` owns no entry in `validationRules`. -/
theorem runRule_park_state (v : String) : runRule "park_state" v = none := by
  simp [runRule, validationRules]

/-- Walking `Object.keys(formData)` visits the eight ruled keys in order;
the `park_state` entry contributes nothing. -/
theorem validateAll_eq_ruled (d : ParkFormData) :
    validateAll d =
      ruledKeys.filterMap (fun k => (runRule k (getField d k)).map (fun e => (k, e))) := by
  simp +decide [validateAll, formKeys, ruledKeys, List.filterMap_cons, getField, runRule_park_state]

/-- C2: a record on which every ruled field passes its rule gets an empty
error mapping from `validateAll`; replacing exactly one ruled field by a
value its rule rejects yields a mapping with exactly one entry, keyed by
that field. -/
theorem claim_C2_validateAll (d : ParkFormData) (k v : String)
    (hvalid : ∀ key ∈ ruledKeys, runRule key (getField d key) = none)
    (hk : k ∈ ruledKeys) (hbad : runRule k v ≠ none) :
    validateAll d = [] ∧ ∃ e, validateAll (setField d k v) = [(k, e)] := by
  have hname := hvalid "park_name" (by decide)
  have habbr := hvalid "park_abbreviation" (by decide)
  have himg := hvalid "park_img_url" (by decide)
  have haddr := hvalid "park_address" (by decide)
  have hcity := hvalid "park_city" (by decide)
  have hzip := hvalid "park_zip_code" (by decide)
  have hlat := hvalid "park_latitude" (by decide)
  have hlng := hvalid "park_longitude" (by decide)
  simp +decide only [getField, if_true, if_false] at hname habbr himg haddr hcity hzip hlat hlng
  constructor
  · simp +decide [validateAll, formKeys, List.filterMap_cons, getField, runRule_park_state,
      hname, habbr, himg, haddr, hcity, hzip, hlat, hlng]
  · simp only [ruledKeys, List.mem_cons, List.not_mem_nil, or_false] at hk
    obtain ⟨e, he⟩ := Option.ne_none_iff_exists'.mp hbad
    rcases hk with rfl | rfl | rfl | rfl | rfl | rfl | rfl | rfl <;>
      exact ⟨e, by simp +decide [validateAll, formKeys, List.filterMap_cons, setField, getField,
        runRule_park_state, he, hname, habbr, himg, haddr, hcity, hzip, hlat, hlng]⟩

/-- C2 witness: a concrete valid draft, invalidated at the name field. -/
theorem claim_C2_validateAll_witness :
    validateAll sampleDraft = [] ∧
    ∃ e, validateAll (setField sampleDraft "park_name" "ab") = [("park_name", e)] :=
  claim_C2_validateAll sampleDraft "park_name" "ab" (by decide) (by decide) (by decide)

/-- C10: `park_state` has no validation rule, so any value for it passes,
and the keys of the error mapping are always among the eight ruled
fields. -/
theorem claim_C10_park_state_unruled (d : ParkFormData) (v : String) :
    runRule "park_state" v = none ∧
    (validateAll d).all (fun kv => decide (kv.1 ∈ ruledKeys)) = true := by
  refine ⟨runRule_park_state v, ?_⟩
  rw [validateAll_eq_ruled, List.all_eq_true]
  intro kv hkv
  rw [List.mem_filterMap] at hkv
  obtain ⟨a, ha, hfa⟩ := hkv
  rw [Option.map_eq_some'] at hfa
  obtain ⟨e, -, hke⟩ := hfa
  subst hke
  exact decide_eq_true ha

/-- C3: at the failing input — the live-validation error state empty, the
draft failing on exactly one field — the submit handler aborts before any
request can be issued, but the notice reports zero failing fields while one
field fails validation in that submit. -/
theorem claim_C3_stale_error_count :
    handleSubmit true [] shortNameDraft = .validationNotice 0 ∧
    (validateAll shortNameDraft).length = 1 ∧
    ∀ confirms : Bool,
      createOutcomeIssuesRequest (handleSubmit true [] shortNameDraft) confirms = false := by
  have h : handleSubmit true [] shortNameDraft = .validationNotice 0 := by decide
  refine ⟨h, by decide, fun confirms => ?_⟩
  rw [h]
  cases confirms <;> rfl

/-- C4 counterexample: a draft equal to its fetched snapshot but failing
validation is rejected with the validation notice, not the "no changes"
notice. -/
theorem claim_C4_counterexample :
    editHandleSubmit true [] shortAddressDraft shortAddressDraft = .validationNotice 0 ∧
    editHandleSubmit true [] shortAddressDraft shortAddressDraft ≠ .noChangesNotice := by
  constructor
  · decide
  · decide

/-- C4 (amended): an online edit submission whose draft passes validation
and is structurally equal to the fetched snapshot is rejected locally with
the "no changes" notice, an outcome from which no update request can be
issued; the handler performs no state writes on this path. -/
theorem claim_C4_no_changes (errorsKeys : List String) (d o : ParkFormData)
    (hvalid : validateAll d = []) (heq : d = o) :
    editHandleSubmit true errorsKeys d o = .noChangesNotice ∧
    ∀ confirms : Bool,
      editOutcomeIssuesRequest (editHandleSubmit true errorsKeys d o) confirms = false := by
  subst heq
  have h : editHandleSubmit true errorsKeys d d = .noChangesNotice := by
    unfold editHandleSubmit hasChanges
    simp [hvalid]
  exact ⟨h, fun confirms => by rw [h]; cases confirms <;> rfl⟩

/-- C4 witness: a concrete valid, unchanged draft. -/
theorem claim_C4_witness :
    editHandleSubmit true [] sampleDraft sampleDraft = .noChangesNotice ∧
    ∀ confirms : Bool,
      editOutcomeIssuesRequest (editHandleSubmit true [] sampleDraft sampleDraft) confirms = false :=
  claim_C4_no_changes [] sampleDraft sampleDraft (by decide) rfl

/-- C5 counterexample: after a failed delete the user confirms retry but
then cancels the re-shown confirmation dialog, so no second `delete(id)`
call is issued — confirming retry alone does not guarantee one more
call. -/
theorem claim_C5_counterexample :
    (runDeleteFlow 7 [⟨true, true, true, true⟩, ⟨true, false, false, false⟩]).retryOffered = true ∧
    (runDeleteFlow 7 [⟨true, true, true, true⟩, ⟨true, false, false, false⟩]).calls = [7] := by
  decide

/-- C5 (amended): when a confirmed delete fails, the held collection is
left unchanged (the entry is not removed) and a retry option is offered; if
the user confirms retry and then also confirms the re-shown confirmation
dialog while online, exactly one further `delete(id)` call for the same
identifier is issued. -/
theorem claim_C5_delete_failure (parks : List Park) (parkId : Int) (r1 r2 : DeleteRound)
    (h1 : r1.online = true) (h2 : r1.confirm = true) (h3 : r1.fails = true) :
    applyRemovals parks (runDeleteFlow parkId [r1]).removals = parks ∧
    (runDeleteFlow parkId [r1]).retryOffered = true ∧
    (r1.retry = true → r2.online = true → r2.confirm = true →
      (runDeleteFlow parkId [r1, r2]).calls = [parkId, parkId]) := by
  obtain ⟨o1, c1, f1, t1⟩ := r1
  obtain ⟨o2, c2, f2, t2⟩ := r2
  dsimp only at h1 h2 h3 ⊢
  subst h1
  subst h2
  subst h3
  refine ⟨?_, ?_, ?_⟩
  · cases t1 <;> rfl
  · cases t1 <;> rfl
  · rintro rfl rfl rfl
    cases f2 <;> cases t2 <;> rfl

/-- C5 witness: a concrete failing round followed by a confirmed retry
round. -/
theorem claim_C5_witness :
    applyRemovals [samplePark] (runDeleteFlow 7 [⟨true, true, true, true⟩]).removals = [samplePark] ∧
    (runDeleteFlow 7 [⟨true, true, true, true⟩]).retryOffered = true ∧
    (runDeleteFlow 7 [⟨true, true, true, true⟩, ⟨true, true, false, false⟩]).calls = [7, 7] := by
  have h := claim_C5_delete_failure [samplePark] 7 ⟨true, true, true, true⟩
    ⟨true, true, false, false⟩ rfl rfl rfl
  exact ⟨h.1, h.2.1, h.2.2 rfl rfl rfl⟩

/-- A string starting with a non-empty string is non-empty. -/
theorem append_left_nonempty (a b : String) (h : a.data.isEmpty = false) :
    ((a ++ b).data).isEmpty = false := by
  rw [String.data_append]
  cases hd : a.data with
  | nil => rw [hd] at h; cases h
  | cons x xs => rfl

/-- Every card-delete failure dialog is non-empty. -/
theorem cardDeleteErrorDialog_nonempty (e : AxiosError) :
    dialogNonempty (cardDeleteErrorDialog e) = true := by
  unfold cardDeleteErrorDialog
  split_ifs with h1 h2 h3 h4 h5 h6 h7 <;> try decide
  cases hm : e.dataMessage with
  | none => rw [hm] at h6; cases h6
  | some s =>
      rw [hm] at h6
      dsimp only [jsTruthyStr] at h6
      unfold dialogNonempty
      simp_all

/-- Every list-fetch failure dialog is non-empty. -/
theorem homeFetchErrorDialog_nonempty (e : AxiosError) :
    dialogNonempty (homeFetchErrorDialog e) = true := by
  unfold homeFetchErrorDialog
  split_ifs with h1
  · cases hm : e.dataMessage with
    | none => rw [hm] at h1; cases h1
    | some s =>
        rw [hm] at h1
        dsimp only [jsTruthyStr] at h1
        unfold dialogNonempty
        simp_all
  · decide

/-- Every detail-fetch failure dialog is non-empty. -/
theorem detailFetchErrorDialog_nonempty (e : AxiosError) (id : String) :
    dialogNonempty (detailFetchErrorDialog e id) = true := by
  unfold detailFetchErrorDialog
  split_ifs <;> try decide
  unfold dialogNonempty
  dsimp only
  rw [append_left_nonempty "No existe el parque con ID: " id (by decide)]
  decide

/-- Every edit-load failure dialog is non-empty. -/
theorem editLoadErrorDialog_nonempty (e : AxiosError) (id : String) :
    dialogNonempty (editLoadErrorDialog e id) = true := by
  unfold editLoadErrorDialog
  split_ifs <;> try decide
  unfold dialogNonempty
  dsimp only
  rw [append_left_nonempty "No existe un parque con ID: " id (by decide)]
  decide

/-- Every create-submit failure dialog is non-empty. -/
theorem createSubmitErrorDialog_nonempty (e : AxiosError) :
    dialogNonempty (createSubmitErrorDialog e) = true := by
  unfold createSubmitErrorDialog
  split_ifs <;> decide

/-- Every edit-submit failure dialog is non-empty. -/
theorem editSubmitErrorDialog_nonempty (e : AxiosError) :
    dialogNonempty (editSubmitErrorDialog e) = true := by
  unfold editSubmitErrorDialog
  split_ifs <;> decide

/-- The hook's delete failure dialog is non-empty. -/
theorem hookDeleteErrorDialog_nonempty (dm de msg : Option String) :
    dialogNonempty (hookDeleteErrorDialog dm de msg) = true := by
  unfold hookDeleteErrorDialog dialogNonempty
  dsimp only
  rw [append_left_nonempty "No se pudo eliminar el parque: " _ (by decide)]
  decide

/-- C6 counterexample: the detail view's 404 dialog and the delete hook's
dialog offer no retry, and a list-fetch failure clears a non-empty held
collection before the user's choice. -/
theorem claim_C6_counterexample :
    (detailFetchErrorDialog ⟨some 404, none, none, true⟩ "5").retryOffered = false ∧
    (hookDeleteErrorDialog none none (some "timeout of 0ms exceeded")).retryOffered = false ∧
    homeFetchCatchParks [samplePark] = [] ∧ [samplePark] ≠ ([] : List Park) := by
  refine ⟨by decide, rfl, rfl, by decide⟩

/-- C6 (amended): every failure dialog carries a non-empty classified title
and text; a retry action re-invoking the same operation is offered by the
card delete, list fetch, create submit, edit submit and edit load handlers
for every error, and by the detail fetch handler except on 404; the
`useDeletePark` hook's dialog offers no retry; the list fetch failure
clears the held collection before the user's retry-or-cancel choice. -/
theorem claim_C6_error_dialogs (e : AxiosError) (id : String)
    (dm de msg : Option String) (prev : List Park) :
    dialogNonempty (cardDeleteErrorDialog e) = true ∧
    dialogNonempty (homeFetchErrorDialog e) = true ∧
    dialogNonempty (detailFetchErrorDialog e id) = true ∧
    dialogNonempty (editLoadErrorDialog e id) = true ∧
    dialogNonempty (createSubmitErrorDialog e) = true ∧
    dialogNonempty (editSubmitErrorDialog e) = true ∧
    dialogNonempty (hookDeleteErrorDialog dm de msg) = true ∧
    (cardDeleteErrorDialog e).retryOffered = true ∧
    (homeFetchErrorDialog e).retryOffered = true ∧
    (createSubmitErrorDialog e).retryOffered = true ∧
    (editSubmitErrorDialog e).retryOffered = true ∧
    (editLoadErrorDialog e id).retryOffered = true ∧
    (detailFetchErrorDialog e id).retryOffered = !(e.status == some 404) ∧
    (hookDeleteErrorDialog dm de msg).retryOffered = false ∧
    homeFetchCatchParks prev = [] := by
  refine ⟨cardDeleteErrorDialog_nonempty e, homeFetchErrorDialog_nonempty e,
    detailFetchErrorDialog_nonempty e id, editLoadErrorDialog_nonempty e id,
    createSubmitErrorDialog_nonempty e, editSubmitErrorDialog_nonempty e,
    hookDeleteErrorDialog_nonempty dm de msg, ?_, ?_, ?_, ?_, ?_, ?_, rfl, rfl⟩
  · unfold cardDeleteErrorDialog; split_ifs <;> rfl
  · unfold homeFetchErrorDialog; rfl
  · unfold createSubmitErrorDialog; split_ifs <;> rfl
  · unfold editSubmitErrorDialog; split_ifs <;> rfl
  · unfold editLoadErrorDialog; split_ifs <;> rfl
  · unfold detailFetchErrorDialog
    split_ifs with h1 h2 <;> simp_all

/-- C7: image resolution is a pure priority function of the two image
fields and the error flag: with no recorded failure it prefers the absolute
URL, else the storage-joined relative path, else the placeholder; with
neither field present it yields the placeholder; once the error flag is set
it yields the placeholder whatever the fields hold, and `onError` sets the
flag, which nothing resets. -/
theorem claim_C7_image_resolution (url uri : Option String) (s : Bool) :
    (jsTruthyStr url = true → getImageUrl url uri false = url.getD "") ∧
    (jsTruthyStr url = false → jsTruthyStr uri = true →
      getImageUrl url uri false = storageBase ++ "/" ++ uri.getD "") ∧
    (jsTruthyStr url = false → jsTruthyStr uri = false →
      getImageUrl url uri s = placeholderImage) ∧
    getImageUrl url uri true = placeholderImage ∧
    onErrorImageFlag s = true := by
  refine ⟨?_, ?_, ?_, ?_, ?_⟩
  · intro h; simp [getImageUrl, h]
  · intro h1 h2; simp [getImageUrl, h1, h2]
  · intro h1 h2; simp [getImageUrl, h1, h2]
  · simp [getImageUrl]
  · cases s <;> rfl

/-- C7 witness: concrete records exercising each priority level. -/
theorem claim_C7_witness :
    getImageUrl (some "https://parque.mx/a.jpg") none false =
      (some "https://parque.mx/a.jpg").getD "" ∧
    getImageUrl none (some "img/a.jpg") false =
      storageBase ++ "/" ++ (some "img/a.jpg").getD "" ∧
    getImageUrl none none false = placeholderImage ∧
    getImageUrl (some "https://parque.mx/a.jpg") (some "img/a.jpg") true = placeholderImage :=
  ⟨(claim_C7_image_resolution (some "https://parque.mx/a.jpg") none false).1 (by decide),
   (claim_C7_image_resolution none (some "img/a.jpg") false).2.1 (by decide) (by decide),
   (claim_C7_image_resolution none none false).2.2.1 (by decide) (by decide),
   (claim_C7_image_resolution (some "https://parque.mx/a.jpg") (some "img/a.jpg") true).2.2.2.1⟩

/-- Code-point lexicographic comparison is transitive. -/
theorem strListLe_trans : ∀ (a b c : List Char),
    strListLe a b = true → strListLe b c = true → strListLe a c = true := by
  intro a
  induction a with
  | nil =>
      intro b c _ _
      rfl
  | cons x xs ih =>
      intro b c hab hbc
      cases b with
      | nil => simp [strListLe] at hab
      | cons y ys =>
          cases c with
          | nil => simp [strListLe] at hbc
          | cons z zs =>
              simp only [strListLe, Bool.or_eq_true, Bool.and_eq_true,
                decide_eq_true_eq] at hab hbc ⊢
              rcases hab with hab | ⟨hab, hab2⟩
              · rcases hbc with hbc | ⟨hbc, _⟩
                · exact Or.inl (by omega)
                · exact Or.inl (by omega)
              · rcases hbc with hbc | ⟨hbc, hbc2⟩
                · exact Or.inl (by omega)
                · exact Or.inr ⟨by omega, ih ys zs hab2 hbc2⟩

/-- Code-point lexicographic comparison is total. -/
theorem strListLe_total : ∀ (a b : List Char), (strListLe a b || strListLe b a) = true := by
  intro a
  induction a with
  | nil =>
      intro b
      simp [strListLe]
  | cons x xs ih =>
      intro b
      cases b with
      | nil => simp [strListLe]
      | cons y ys =>
          simp only [strListLe, Bool.or_eq_true, Bool.and_eq_true, decide_eq_true_eq]
          rcases Nat.lt_trichotomy x.toNat y.toNat with h | h | h
          · exact Or.inl (Or.inl h)
          · have h2 := ih ys
            rw [Bool.or_eq_true] at h2
            rcases h2 with h2 | h2
            · exact Or.inl (Or.inr ⟨h, h2⟩)
            · exact Or.inr (Or.inr ⟨h.symm, h2⟩)
          · exact Or.inr (Or.inl h)

/-- Each sort comparator is transitive. -/
theorem sortLeOf_trans (sortBy : String) (a b c : Park)
    (h1 : sortLeOf sortBy a b = true) (h2 : sortLeOf sortBy b c = true) :
    sortLeOf sortBy a c = true := by
  unfold sortLeOf at h1 h2 ⊢
  split_ifs at h1 h2 ⊢ with hc hr
  · exact strListLe_trans _ _ _ h1 h2
  · simp only [decide_eq_true_eq] at h1 h2 ⊢
    omega
  · exact strListLe_trans _ _ _ h1 h2

/-- Each sort comparator is total. -/
theorem sortLeOf_total (sortBy : String) (a b : Park) :
    (sortLeOf sortBy a b || sortLeOf sortBy b a) = true := by
  unfold sortLeOf
  split_ifs with hc hr
  · exact strListLe_total _ _
  · simp only [Bool.or_eq_true, decide_eq_true_eq]
    omega
  · exact strListLe_total _ _

/-- C8: the derived view keeps exactly the records matched by the
case-insensitive search over name/city/state/address (all of them on an
empty term) intersected with the exact city filter, and is ordered by the
selected sort key — ascending name, ascending city, or descending
identifier. -/
theorem claim_C8_list_view (parks : List Park) (term city sortBy : String) :
    List.Perm (filteredAndSortedParks parks term city sortBy)
      (parks.filter (fun p =>
        (term.data.isEmpty || ciIncludes p.park_name term || ciIncludes p.park_city term ||
          ciIncludes p.park_state term || ciIncludes p.park_address term) &&
        (city.data.isEmpty || p.park_city == some city))) ∧
    List.Pairwise (fun a b => sortLeOf sortBy a b = true)
      (filteredAndSortedParks parks term city sortBy) := by
  constructor
  · exact List.mergeSort_perm _ _
  · exact List.sorted_mergeSort (fun a b c => sortLeOf_trans sortBy a b c)
      (fun a b => sortLeOf_total sortBy a b) _

/-- C9 counterexample: the list operation's call config carries no explicit
timeout at all (nor does the auxiliary delete hook's), so not every
operation passes an explicit 10000–15000 ms timeout. -/
theorem claim_C9_counterexample :
    callSiteTimeout .homeList = none ∧ callSiteTimeout .hookDelete = none ∧
    ∀ t : Nat, ¬(callSiteTimeout .homeList = some t ∧ 10000 ≤ t ∧ t ≤ 15000) := by
  refine ⟨rfl, rfl, fun t h => ?_⟩
  cases h.1

/-- C9 (amended): every record-client call site except the Home list fetch
and the `useDeletePark` hook's delete passes an explicit timeout between
10000 and 15000 ms; those two pass none and rely on the shared client
instance's configuration. -/
theorem claim_C9_timeouts (s : ApiCallSite)
    (h1 : s ≠ ApiCallSite.homeList) (h2 : s ≠ ApiCallSite.hookDelete) :
    ∃ t, callSiteTimeout s = some t ∧ 10000 ≤ t ∧ t ≤ 15000 := by
  cases s with
  | homeList => exact absurd rfl h1
  | hookDelete => exact absurd rfl h2
  | detailGet => exact ⟨10000, rfl, by omega, by omega⟩
  | editLoadGet => exact ⟨10000, rfl, by omega, by omega⟩
  | createPost => exact ⟨15000, rfl, by omega, by omega⟩
  | editPut => exact ⟨15000, rfl, by omega, by omega⟩
  | cardDelete => exact ⟨15000, rfl, by omega, by omega⟩

/-- C9 witness: the create call site. -/
theorem claim_C9_witness :
    ∃ t, callSiteTimeout ApiCallSite.createPost = some t ∧ 10000 ≤ t ∧ t ≤ 15000 :=
  claim_C9_timeouts ApiCallSite.createPost (by decide) (by decide)
